import Mathlib

/-!
Verification of the invoicing backend.

Shallow embedding of the invoicing backend (FastAPI routes in
`app/routes/invoices.py` and the migration scripts in `migrations/`).
The relational store is modelled as lists of rows; SQL queries used by the
routes are modelled row-by-row.  Monetary amounts (REAL columns, Python
floats) are modelled as rationals; row ids (INTEGER PRIMARY KEY
AUTOINCREMENT) as naturals tracked by explicit next-id counters.
-/

namespace Invoicing

/-- A row of the `products` table (`{id, name, price}`). -/
structure Product where
  id : Nat
  name : String
  price : ℚ
deriving DecidableEq, Repr

/-- A row of the `clients` table. -/
structure Client where
  id : Nat
  name : String
  address : String
  company_registration_no : String
deriving DecidableEq, Repr

/-- A row of the `invoices` table (minus `created_at`, which no route reads). -/
structure Invoice where
  id : Nat
  invoice_no : String
  issue_date : String
  due_date : String
  client_id : Nat
  address : String
  tax : ℚ
  total : ℚ
deriving DecidableEq, Repr

/-- A row of the `invoice_items` table. -/
structure InvoiceItem where
  id : Nat
  invoice_id : Nat
  product_id : Nat
  quantity : Int
  unit_price : ℚ
  subtotal : ℚ
deriving DecidableEq, Repr

/-- The relational store: the four tables plus the AUTOINCREMENT counters of
`invoices` and `invoice_items`. -/
structure DB where
  products : List Product
  clients : List Client
  invoices : List Invoice
  invoice_items : List InvoiceItem
  next_invoice_id : Nat
  next_item_id : Nat
deriving DecidableEq, Repr

/-- Request schema `InvoiceItemRequest` (`{product_id, quantity}`). -/
structure InvoiceItemRequest where
  product_id : Nat
  quantity : Int
deriving DecidableEq, Repr

/-- Request schema `InvoiceCreate`. -/
structure InvoiceCreate where
  client_id : Nat
  issue_date : String
  due_date : String
  tax : ℚ
  items : List InvoiceItemRequest
deriving DecidableEq, Repr

/-- The error outcomes an endpoint can produce: `HTTPException(400, msg)`,
`HTTPException(404, msg)`, or the catch-all 500 conversion. -/
inductive ApiError where
  | badRequest (msg : String)
  | notFound (msg : String)
  | serverError
deriving DecidableEq, Repr

/-- Query `SELECT id FROM clients WHERE id = ?` followed by `fetchone() is not None`. -/
def clientExists (db : DB) (cid : Nat) : Bool :=
  db.clients.any (fun c => c.id == cid)

/-- Query `SELECT id FROM products WHERE id = ?` followed by `fetchone() is not None`. -/
def productExists (db : DB) (pid : Nat) : Bool :=
  db.products.any (fun p => p.id == pid)

/-- Query `SELECT ... FROM clients WHERE id = ?` with `fetchone()`. -/
def findClient (db : DB) (cid : Nat) : Option Client :=
  db.clients.find? (fun c => c.id == cid)

/-- Query `SELECT price FROM products WHERE id = ?` with `fetchone()`. -/
def findProduct (db : DB) (pid : Nat) : Option Product :=
  db.products.find? (fun p => p.id == pid)

/-- Numeric value of a decimal digit character. -/
def charDigit (c : Char) : Nat := c.toNat - 48

/-- Value of a string of decimal digits read left to right into an
accumulator, as SQLite's CAST does on a digit string. -/
def digitsVal : List Char → Nat → Nat
  | [], acc => acc
  | c :: cs, acc => digitsVal cs (acc * 10 + charDigit c)

/-- SQL `SUBSTR(s, 5)`: the characters of `s` from position 5 (1-based) on. -/
def sqlSubstrFrom5 (s : String) : String := String.mk (s.data.drop 4)

/-- SQL `CAST(s AS INTEGER)` for the strings this application stores: the value
of the longest digit prefix, `0` when there is none. -/
def sqlCastInt (s : String) : Nat :=
  digitsVal (s.data.takeWhile Char.isDigit) 0

/-- The SQL expression `CAST(SUBSTR(invoice_no, 5) AS INTEGER)` applied to
one stored invoice number. -/
def invoiceNoValue (s : String) : Nat := sqlCastInt (sqlSubstrFrom5 s)

/-- The scan `COALESCE(MAX(CAST(SUBSTR(invoice_no, 5) AS INTEGER)), 0)` over the
`invoices` table. -/
def maxSuffix (invs : List Invoice) : Nat :=
  invs.foldl (fun acc i => Nat.max acc (invoiceNoValue i.invoice_no)) 0

/-- Decimal digits of `n`, least significant first; `fuel` bounds the
recursion depth (any `fuel > n` is enough). -/
def natDigitsAux : Nat → Nat → List Char
  | 0, _ => []
  | fuel + 1, n =>
    if n < 10 then [Nat.digitChar n]
    else Nat.digitChar (n % 10) :: natDigitsAux fuel (n / 10)

/-- Decimal digits of `n`, most significant first (the digits of `repr(n)`
for a non-negative `n`). -/
def natToDigits (n : Nat) : List Char := (natDigitsAux (n + 1) n).reverse

/-- Left-pad a digit list with zeros to width 3, as `"%03d"` does. -/
def pad3 (ds : List Char) : List Char :=
  List.replicate (3 - ds.length) '0' ++ ds

/-- The f-string `f"INV-{invoice_number:03d}"`. -/
def formatInvoiceNo (n : Nat) : String :=
  String.mk ('I' :: 'N' :: 'V' :: '-' :: pad3 (natToDigits n))

/-- Helper `get_next_invoice_number`: 1 plus the maximum stored numeric suffix
(0 when the table is empty), rendered as `INV-%03d`. -/
def get_next_invoice_number (db : DB) : String :=
  formatInvoiceNo (maxSuffix db.invoices + 1)

/-- Python `s.split("-")` on the character list: splitting at every `'-'`,
keeping empty parts, as `str.split` with an explicit separator does. -/
def splitOnDash : List Char → List (List Char)
  | [] => [[]]
  | c :: cs =>
    match splitOnDash cs with
    | [] => [[]]
    | p :: ps => if c = '-' then [] :: p :: ps else (c :: p) :: ps

/-- Python string `<`: lexicographic comparison by code point. -/
def lexLt : List Char → List Char → Bool
  | [], [] => false
  | [], _ :: _ => true
  | _ :: _, [] => false
  | a :: as, b :: bs =>
    if a.val < b.val then true
    else if b.val < a.val then false
    else lexLt as bs

/-- Python `a < b` on strings. -/
def pyStrLt (a b : String) : Bool := lexLt a.data b.data

/-- Check `len(s.split("-")) == 3`: the date-shape check of
`validate_invoice_input`. -/
def dateShapeOk (s : String) : Bool := (splitOnDash s.data).length == 3

/-- The per-item loop of `validate_invoice_input`: `enumerate` starts `idx`
at 0 and the message uses `idx + 1`, so the 1-based position is threaded
directly. -/
def validateItems (db : DB) : List InvoiceItemRequest → Nat → Except String Unit
  | [], _ => .ok ()
  | item :: rest, pos =>
    if item.quantity ≤ 0 then
      .error ("Item " ++ Nat.repr pos ++ ": Quantity must be greater than 0")
    else if !productExists db item.product_id then
      .error ("Product " ++ Nat.repr item.product_id ++ " not found")
    else validateItems db rest (pos + 1)

/-- Function `validate_invoice_input`: the checks in source order, each raising a
distinct `HTTPException(400, ...)` message. -/
def validate_invoice_input (db : DB) (invoice : InvoiceCreate) : Except String Unit :=
  if !(dateShapeOk invoice.issue_date && dateShapeOk invoice.due_date) then
    .error "Dates must be in format YYYY-MM-DD"
  else if pyStrLt invoice.due_date invoice.issue_date then
    .error "Due date must be after or equal to issue date"
  else if !clientExists db invoice.client_id then
    .error ("Client " ++ Nat.repr invoice.client_id ++ " not found")
  else if invoice.items.isEmpty then
    .error "Invoice must have at least one item"
  else if invoice.tax < 0 then
    .error "Tax cannot be negative"
  else validateItems db invoice.items 1

/-- The `subtotal += product_price * item.quantity` accumulation loop of
`create_invoice`; `none` models the `KeyError`/`TypeError` a missing
product row would raise (caught as a 500). -/
def computeSubtotal (db : DB) : List InvoiceItemRequest → ℚ → Option ℚ
  | [], acc => some acc
  | item :: rest, acc =>
    match findProduct db item.product_id with
    | none => none
    | some p => computeSubtotal db rest (acc + p.price * (item.quantity : ℚ))

/-- The item-insertion loop of `create_invoice`: each item row snapshots the
product's current price and stores `subtotal = price * quantity`; ids are
assigned by AUTOINCREMENT in request order. -/
def insertItems (db : DB) (invId : Nat) : List InvoiceItemRequest → Nat →
    Option (List InvoiceItem × Nat)
  | [], nextId => some ([], nextId)
  | item :: rest, nextId =>
    match findProduct db item.product_id with
    | none => none
    | some p =>
      match insertItems db invId rest (nextId + 1) with
      | none => none
      | some (tl, nid) =>
        some ({ id := nextId, invoice_id := invId, product_id := item.product_id,
                quantity := item.quantity, unit_price := p.price,
                subtotal := p.price * (item.quantity : ℚ) } :: tl, nid)

/-- Endpoint `POST /invoices` (`create_invoice`): validate, snapshot the client
address, derive the number, total the items, insert the invoice row then
its item rows.  On success the new state and the inserted invoice row are
returned (the route re-reads exactly these within the same transaction). -/
def create_invoice (db : DB) (invoice : InvoiceCreate) :
    Except ApiError (DB × Invoice) :=
  match validate_invoice_input db invoice with
  | .error msg => .error (.badRequest msg)
  | .ok () =>
    match findClient db invoice.client_id with
    | none => .error .serverError
    | some client =>
      let invoice_no := get_next_invoice_number db
      match computeSubtotal db invoice.items 0 with
      | none => .error .serverError
      | some subtotal =>
        let total := subtotal + invoice.tax
        let invoice_id := db.next_invoice_id
        let newInvoice : Invoice :=
          { id := invoice_id, invoice_no := invoice_no,
            issue_date := invoice.issue_date, due_date := invoice.due_date,
            client_id := invoice.client_id, address := client.address,
            tax := invoice.tax, total := total }
        match insertItems db invoice_id invoice.items db.next_item_id with
        | none => .error .serverError
        | some (newItems, nextItemId) =>
          .ok ({ db with
                  invoices := db.invoices ++ [newInvoice],
                  invoice_items := db.invoice_items ++ newItems,
                  next_invoice_id := invoice_id + 1,
                  next_item_id := nextItemId }, newInvoice)

instance {ε α : Type} [DecidableEq ε] [DecidableEq α] : DecidableEq (Except ε α) :=
  fun x y =>
    match x, y with
    | .error a, .error b =>
      if h : a = b then .isTrue (by rw [h]) else .isFalse (fun hc => h (Except.error.inj hc))
    | .error _, .ok _ => .isFalse (fun hc => Except.noConfusion hc)
    | .ok _, .error _ => .isFalse (fun hc => Except.noConfusion hc)
    | .ok a, .ok b =>
      if h : a = b then .isTrue (by rw [h]) else .isFalse (fun hc => h (Except.ok.inj hc))

/-- One API call to `POST /invoices` as a state transition: validation runs
before any mutation, so on any error the store is unchanged. -/
def createStep (db : DB) (invoice : InvoiceCreate) :
    DB × Except ApiError Invoice :=
  match create_invoice db invoice with
  | .ok (db2, inv) => (db2, .ok inv)
  | .error e => (db, .error e)

/-- The store after one `POST /invoices` call. -/
def runCreate (db : DB) (invoice : InvoiceCreate) : DB := (createStep db invoice).1

/-- The `invoice_no` assigned by one `POST /invoices` call, when it succeeds. -/
def createdNo (db : DB) (invoice : InvoiceCreate) : Option String :=
  ((createStep db invoice).2.toOption).map (fun i => i.invoice_no)

/-- The row id assigned by one `POST /invoices` call, when it succeeds. -/
def createdId (db : DB) (invoice : InvoiceCreate) : Option Nat :=
  ((createStep db invoice).2.toOption).map (fun i => i.id)

/-- Statement `DELETE FROM invoice_items WHERE invoice_id = ?`. -/
def deleteItemsOf (db : DB) (invoice_id : Nat) : DB :=
  { db with invoice_items :=
      db.invoice_items.filter (fun it => !(it.invoice_id == invoice_id)) }

/-- Statement `DELETE FROM invoices WHERE id = ?`. -/
def deleteInvoiceRow (db : DB) (invoice_id : Nat) : DB :=
  { db with invoices := db.invoices.filter (fun i => !(i.id == invoice_id)) }

/-- Endpoint `DELETE /invoices/(id)` (`delete_invoice`): 404 when no invoice row has
this id; otherwise the item rows are deleted first, then the invoice row. -/
def delete_invoice (db : DB) (invoice_id : Nat) : Except ApiError DB :=
  if db.invoices.any (fun i => i.id == invoice_id) then
    .ok (deleteInvoiceRow (deleteItemsOf db invoice_id) invoice_id)
  else .error (.notFound "Invoice not found")

/-- The store after one `DELETE /invoices/{id}` call. -/
def runDelete (db : DB) (invoice_id : Nat) : DB :=
  match delete_invoice db invoice_id with
  | .ok db2 => db2
  | .error _ => db

/-- Endpoint `GET /invoices/(id)` (`get_invoice`): the invoice row joined with its
client (the JOIN yields no row when either side is absent, hence 404), plus
the item rows in id order. -/
def get_invoice (db : DB) (invoice_id : Nat) :
    Except ApiError (Invoice × Client × List InvoiceItem) :=
  match db.invoices.find? (fun i => i.id == invoice_id) with
  | none => .error (.notFound "Invoice not found")
  | some inv =>
    match findClient db inv.client_id with
    | none => .error (.notFound "Invoice not found")
    | some c =>
      .ok (inv, c, db.invoice_items.filter (fun it => it.invoice_id == invoice_id))

/-! ## Migration scripts

State visible to the two migration units named by the spec: the `_migrations`
ledger, whether the `products` table exists, and the row contents of
`products` and `clients` (rows as inserted by the seed script). -/

/-- Store state as seen by the migration scripts. -/
structure MigState where
  ledger : List String
  productsTable : Bool
  productRows : List (String × ℚ)
  clientRows : List (String × String × String)
deriving DecidableEq, Repr

/-- The seed rows of migration 006 for `products`. -/
def seedProducts : List (String × ℚ) :=
  [("Web Development", 5000), ("Mobile App Development", 8000),
   ("UI/UX Design", 2500), ("Cloud Infrastructure Setup", 3500),
   ("Database Design & Optimization", 2000), ("Technical Consulting", 150),
   ("Quality Assurance Testing", 1500), ("Maintenance & Support", 1000)]

/-- The seed rows of migration 006 for `clients`. -/
def seedClients : List (String × String × String) :=
  [("Acme Corporation", "123 Business Ave, New York, NY 10001", "ACM-2024-001"),
   ("TechStart Inc.", "456 Innovation Blvd, San Francisco, CA 94105", "TECH-2024-002"),
   ("Global Solutions Ltd.", "789 Commerce Street, London, UK SW1A 1AA", "GLOB-2024-003"),
   ("Bright Ventures LLC", "321 Enterprise Way, Austin, TX 78701", "BRIT-2024-004"),
   ("Coastal Trading Co.", "654 Harbor Road, Miami, FL 33101", "COAST-2024-005")]

/-- Function `upgrade` of `002_create_products_table`: skip when the ledger has the
row, else `CREATE TABLE IF NOT EXISTS products` and record the ledger row. -/
def upgrade_002 (s : MigState) : MigState :=
  if s.ledger.contains "002_create_products_table" then s
  else { s with productsTable := true,
                ledger := s.ledger ++ ["002_create_products_table"] }

/-- Function `upgrade` of `006_seed_products_and_clients`: skip when the ledger has
the row, else insert the seed rows and record the ledger row. -/
def upgrade_006 (s : MigState) : MigState :=
  if s.ledger.contains "006_seed_products_and_clients" then s
  else { s with productRows := s.productRows ++ seedProducts,
                clientRows := s.clientRows ++ seedClients,
                ledger := s.ledger ++ ["006_seed_products_and_clients"] }

/-! ## Concrete scenario data (spec §8 and witnesses) -/

/-- The spec's seeded scenario store: products `{1 ↦ 5000.00}` and
`{2 ↦ 150.00}`, client 1, empty `invoices`/`invoice_items`. -/
def scenarioDB : DB :=
  { products := [{ id := 1, name := "Web Development", price := 5000 },
                 { id := 2, name := "Consulting", price := 150 }],
    clients := [{ id := 1, name := "Acme Corporation",
                  address := "123 Business Ave, New York, NY 10001",
                  company_registration_no := "ACM-2024-001" }],
    invoices := [], invoice_items := [],
    next_invoice_id := 1, next_item_id := 1 }

/-- The spec's scenario request: `items=[{product_id:1,qty:1},{product_id:2,qty:2}]`, `tax=50`. -/
def scenarioReq : InvoiceCreate :=
  { client_id := 1, issue_date := "2024-03-01", due_date := "2024-03-15",
    tax := 50,
    items := [{ product_id := 1, quantity := 1 }, { product_id := 2, quantity := 2 }] }

/-- The price a product row currently carries, 0 when there is no such row
(the "price at creation time" of the spec's total formula). -/
def priceOf (db : DB) (pid : Nat) : ℚ :=
  ((findProduct db pid).map (fun p => p.price)).getD 0

/-- The spec's total formula: `Σ(item.quantity * product.price_at_creation_time)`. -/
def specItemsSum (db : DB) (items : List InvoiceItemRequest) : ℚ :=
  (items.map (fun it => (it.quantity : ℚ) * priceOf db it.product_id)).sum

/-- The invoice row created by the scenario request on `scenarioDB`. -/
def scenarioInv1 : Invoice :=
  { id := 1, invoice_no := "INV-001", issue_date := "2024-03-01",
    due_date := "2024-03-15", client_id := 1,
    address := "123 Business Ave, New York, NY 10001", tax := 50, total := 5350 }

/-- The item rows created by the scenario request on `scenarioDB`. -/
def scenarioItems1 : List InvoiceItem :=
  [{ id := 1, invoice_id := 1, product_id := 1, quantity := 1, unit_price := 5000,
     subtotal := 5000 },
   { id := 2, invoice_id := 1, product_id := 2, quantity := 2, unit_price := 150,
     subtotal := 300 }]

/-- The store after the scenario create. -/
def scenarioDB1 : DB :=
  { scenarioDB with
      invoices := [scenarioInv1]
      invoice_items := scenarioItems1
      next_invoice_id := 2
      next_item_id := 3 }

/-- The store after deleting invoice 1 from `scenarioDB1`: the tables are
empty again but the AUTOINCREMENT counters keep their values. -/
def scenarioDB2 : DB :=
  { scenarioDB with next_invoice_id := 2, next_item_id := 3 }

/-- The invoice row created by repeating the scenario request after the
delete: a fresh row id but the same `invoice_no` as the deleted invoice. -/
def scenarioInv2 : Invoice :=
  { scenarioInv1 with id := 2 }

/-- The item rows created by the repeated scenario request. -/
def scenarioItems2 : List InvoiceItem :=
  [{ id := 3, invoice_id := 2, product_id := 1, quantity := 1, unit_price := 5000,
     subtotal := 5000 },
   { id := 4, invoice_id := 2, product_id := 2, quantity := 2, unit_price := 150,
     subtotal := 300 }]

/-- The store after the repeated scenario create. -/
def scenarioDB3 : DB :=
  { scenarioDB with
      invoices := [scenarioInv2]
      invoice_items := scenarioItems2
      next_invoice_id := 3
      next_item_id := 5 }

/-- A create request naming a client id with no client row. -/
def reqBadClient : InvoiceCreate := { scenarioReq with client_id := 99 }

/-- A create request whose second item names a product id with no product
row (first failing item at 1-based position 2). -/
def reqBadProduct : InvoiceCreate :=
  { client_id := 1, issue_date := "2024-03-01", due_date := "2024-03-15",
    tax := 0,
    items := [{ product_id := 1, quantity := 1 }, { product_id := 99, quantity := 1 }] }

/-- A create request with calendar-invalid but well-shaped dates. -/
def req9999 : InvoiceCreate :=
  { scenarioReq with issue_date := "2024-99-99", due_date := "2024-99-99" }

/-- A create request with `due_date < issue_date` (spec §8's example). -/
def reqDueEarly : InvoiceCreate :=
  { scenarioReq with issue_date := "2024-03-10", due_date := "2024-03-01" }

/-- A create request whose issue date does not split into three parts. -/
def reqBadShape : InvoiceCreate := { scenarioReq with issue_date := "2024/03/01" }

/-- A migration-store state with an empty ledger and no tables. -/
def migEmpty : MigState :=
  { ledger := [], productsTable := false, productRows := [], clientRows := [] }

end Invoicing

namespace Invoicing

/-! ## General helper lemmas -/

theorem data_append (a b : String) : (a ++ b).data = a.data ++ b.data := by
  obtain ⟨l⟩ := a
  obtain ⟨m⟩ := b
  rfl

/-! ## Evaluation of the spec scenario -/

theorem scenario_subtotal : computeSubtotal scenarioDB scenarioReq.items 0 = some 5300 := by
  simp [computeSubtotal, findProduct, scenarioDB, scenarioReq, List.find?]
  norm_num

theorem scenario_create :
    create_invoice scenarioDB scenarioReq = .ok (scenarioDB1, scenarioInv1) := by
  have hv : validate_invoice_input scenarioDB scenarioReq = .ok () := by decide
  have hc : findClient scenarioDB scenarioReq.client_id = some
      { id := 1, name := "Acme Corporation",
        address := "123 Business Ave, New York, NY 10001",
        company_registration_no := "ACM-2024-001" } := by decide
  have hn : get_next_invoice_number scenarioDB = "INV-001" := by decide
  have hs := scenario_subtotal
  have hi : insertItems scenarioDB scenarioDB.next_invoice_id scenarioReq.items
      scenarioDB.next_item_id = some (scenarioItems1, 3) := by
    simp [insertItems, findProduct, scenarioDB, scenarioReq, List.find?, scenarioItems1]
    norm_num
  unfold create_invoice
  simp only [hv, hc, hn, hs, hi]
  simp [scenarioDB1, scenarioInv1, scenarioDB, scenarioItems1, scenarioReq]
  norm_num

theorem scenario_delete : delete_invoice scenarioDB1 1 = .ok scenarioDB2 := by decide

theorem scenario_create2 :
    create_invoice scenarioDB2 scenarioReq = .ok (scenarioDB3, scenarioInv2) := by
  have hv : validate_invoice_input scenarioDB2 scenarioReq = .ok () := by decide
  have hc : findClient scenarioDB2 scenarioReq.client_id = some
      { id := 1, name := "Acme Corporation",
        address := "123 Business Ave, New York, NY 10001",
        company_registration_no := "ACM-2024-001" } := by decide
  have hn : get_next_invoice_number scenarioDB2 = "INV-001" := by decide
  have hs : computeSubtotal scenarioDB2 scenarioReq.items 0 = some 5300 := by
    simp [computeSubtotal, findProduct, scenarioDB2, scenarioDB, scenarioReq, List.find?]
    norm_num
  have hi : insertItems scenarioDB2 scenarioDB2.next_invoice_id scenarioReq.items
      scenarioDB2.next_item_id = some (scenarioItems2, 5) := by
    simp [insertItems, findProduct, scenarioDB2, scenarioDB, scenarioReq, List.find?,
      scenarioItems2]
    norm_num
  unfold create_invoice
  simp only [hv, hc, hn, hs, hi]
  simp [scenarioDB3, scenarioInv2, scenarioInv1, scenarioDB2, scenarioDB, scenarioItems2,
    scenarioReq]
  norm_num

end Invoicing

namespace Invoicing

/-! ## Decimal digit lemmas -/

theorem digitsVal_append (a b : List Char) (acc : Nat) :
    digitsVal (a ++ b) acc = digitsVal b (digitsVal a acc) := by
  induction a generalizing acc with
  | nil => rfl
  | cons c cs ih => simp [digitsVal, ih]

theorem charDigit_digitChar (n : Nat) (h : n < 10) :
    charDigit (Nat.digitChar n) = n := by
  revert h
  revert n
  decide

theorem digitChar_isDigit (n : Nat) (h : n < 10) :
    (Nat.digitChar n).isDigit = true := by
  revert h
  revert n
  decide

theorem digitsVal_natDigitsAux (fuel n : Nat) (h : n < fuel) :
    digitsVal (natDigitsAux fuel n).reverse 0 = n := by
  induction fuel generalizing n with
  | zero => omega
  | succ fuel ih =>
    by_cases h10 : n < 10
    · simp [natDigitsAux, h10, digitsVal, charDigit_digitChar n h10]
    · have hdiv : n / 10 < n := Nat.div_lt_self (by omega) (by omega)
      have hrec : n / 10 < fuel := by omega
      have hmod : n % 10 < 10 := Nat.mod_lt _ (by omega)
      simp only [natDigitsAux, if_neg h10, List.reverse_cons]
      rw [digitsVal_append, ih _ hrec]
      simp [digitsVal, charDigit_digitChar _ hmod]
      omega

theorem digitsVal_natToDigits (n : Nat) : digitsVal (natToDigits n) 0 = n :=
  digitsVal_natDigitsAux (n + 1) n (by omega)

theorem natDigitsAux_digits (fuel n : Nat) :
    ∀ c ∈ natDigitsAux fuel n, c.isDigit = true := by
  induction fuel generalizing n with
  | zero => simp [natDigitsAux]
  | succ fuel ih =>
    intro c hc
    by_cases h10 : n < 10
    · simp [natDigitsAux, h10] at hc
      rw [hc]
      exact digitChar_isDigit n h10
    · simp only [natDigitsAux, if_neg h10, List.mem_cons] at hc
      rcases hc with hc | hc
      · rw [hc]
        exact digitChar_isDigit _ (Nat.mod_lt _ (by omega))
      · exact ih _ c hc

theorem natToDigits_digits (n : Nat) : ∀ c ∈ natToDigits n, c.isDigit = true := by
  intro c hc
  rw [natToDigits, List.mem_reverse] at hc
  exact natDigitsAux_digits _ _ c hc

theorem pad3_digits (ds : List Char) (h : ∀ c ∈ ds, c.isDigit = true) :
    ∀ c ∈ pad3 ds, c.isDigit = true := by
  intro c hc
  rw [pad3, List.mem_append] at hc
  rcases hc with hc | hc
  · rw [List.eq_of_mem_replicate hc]
    decide
  · exact h c hc

theorem takeWhile_eq_self_of_all {p : Char → Bool} (l : List Char)
    (h : ∀ c ∈ l, p c = true) : l.takeWhile p = l := by
  induction l with
  | nil => rfl
  | cons c cs ih =>
    simp only [List.takeWhile_cons, h c (by simp)]
    rw [if_pos trivial, ih (fun x hx => h x (by simp [hx]))]

theorem digitsVal_replicate_zero (k : Nat) (ds : List Char) :
    digitsVal (List.replicate k '0' ++ ds) 0 = digitsVal ds 0 := by
  rw [digitsVal_append]
  have : digitsVal (List.replicate k '0') 0 = 0 := by
    induction k with
    | zero => rfl
    | succ k ih => simpa [List.replicate_succ, digitsVal, charDigit] using ih
  rw [this]

theorem invoiceNoValue_format (n : Nat) : invoiceNoValue (formatInvoiceNo n) = n := by
  have hsub : sqlSubstrFrom5 (formatInvoiceNo n) = String.mk (pad3 (natToDigits n)) := rfl
  rw [invoiceNoValue, hsub, sqlCastInt]
  have hall : ∀ c ∈ pad3 (natToDigits n), c.isDigit = true :=
    pad3_digits _ (natToDigits_digits n)
  rw [show (String.mk (pad3 (natToDigits n))).data = pad3 (natToDigits n) from rfl]
  rw [takeWhile_eq_self_of_all _ hall, pad3, digitsVal_replicate_zero]
  exact digitsVal_natToDigits n

/-! ## Fold-max lemmas for the number scan -/

theorem le_foldl_max {α : Type} (f : α → Nat) (l : List α) (a : Nat) :
    a ≤ l.foldl (fun acc x => Nat.max acc (f x)) a ∧
    ∀ x ∈ l, f x ≤ l.foldl (fun acc x => Nat.max acc (f x)) a := by
  induction l generalizing a with
  | nil => simp
  | cons y ys ih =>
    refine ⟨?_, ?_⟩
    · have h1 : a ≤ Nat.max a (f y) := Nat.le_max_left _ _
      exact le_trans h1 (ih (Nat.max a (f y))).1
    · intro x hx
      rcases List.mem_cons.mp hx with hx | hx
      · subst hx
        exact le_trans (Nat.le_max_right a (f x)) (ih (Nat.max a (f x))).1
      · exact (ih (Nat.max a (f y))).2 x hx

theorem foldl_max_cases {α : Type} (f : α → Nat) (l : List α) (a : Nat) :
    l.foldl (fun acc x => Nat.max acc (f x)) a = a ∨
    ∃ x ∈ l, l.foldl (fun acc x => Nat.max acc (f x)) a = f x := by
  induction l generalizing a with
  | nil => exact Or.inl rfl
  | cons y ys ih =>
    rcases ih (Nat.max a (f y)) with h | ⟨x, hx, hfx⟩
    · simp only [List.foldl_cons]
      rcases Nat.le_total (f y) a with hle | hle
      · left
        rw [h]
        exact Nat.max_eq_left hle
      · right
        exact ⟨y, by simp, by rw [h]; exact Nat.max_eq_right hle⟩
    · exact Or.inr ⟨x, by simp [hx], by simpa using hfx⟩

end Invoicing

namespace Invoicing

/-! ## Distinguishing validation messages -/

theorem append3_ne_of_head_ne (p x s t : String) (c : Char) (l : List Char)
    (hp : p.data = c :: l) (ht : t.data.head? ≠ some c) : p ++ x ++ s ≠ t := by
  intro h
  apply ht
  rw [← h, data_append, data_append, hp]
  rfl

theorem append3_ne_append3_of_head_ne (p x s q y u : String) (c d : Char)
    (l m : List Char) (hp : p.data = c :: l) (hq : q.data = d :: m) (hcd : c ≠ d) :
    p ++ x ++ s ≠ q ++ y ++ u := by
  intro h
  have h1 : (p ++ x ++ s).data.head? = some c := by
    rw [data_append, data_append, hp]
    rfl
  have h2 : (q ++ y ++ u).data.head? = some d := by
    rw [data_append, data_append, hq]
    rfl
  rw [h, h2] at h1
  exact hcd (Option.some.inj h1).symm

theorem itemMsg_ne_emptyMsg (x s : String) :
    "Item " ++ x ++ s ≠ "Invoice must have at least one item" := by
  intro h
  have h1 : ("Item " ++ x ++ s).data.tail.head? = some 't' := by
    rw [data_append, data_append]
    rfl
  rw [h] at h1
  exact absurd h1 (by decide)

/-! ## Behaviour of the per-item validation loop -/

theorem validateItems_error_shape (db : DB) (items : List InvoiceItemRequest)
    (pos : Nat) (r : String) (h : validateItems db items pos = .error r) :
    (∃ k, r = "Item " ++ Nat.repr k ++ ": Quantity must be greater than 0") ∨
    (∃ pid, r = "Product " ++ Nat.repr pid ++ " not found") := by
  induction items generalizing pos with
  | nil => simp [validateItems] at h
  | cons it rest ih =>
    by_cases h1 : it.quantity ≤ 0
    · simp only [validateItems, if_pos h1] at h
      exact Or.inl ⟨pos, (Except.error.inj h).symm⟩
    · cases hb : productExists db it.product_id with
      | false =>
        simp only [validateItems, if_neg h1, hb, Bool.not_false, if_pos] at h
        exact Or.inr ⟨it.product_id, (Except.error.inj h).symm⟩
      | true =>
        simp only [validateItems, if_neg h1, hb, Bool.not_true] at h
        rw [if_neg (by simp)] at h
        exact ih _ h

theorem validateItems_append (db : DB) (pre tail : List InvoiceItemRequest) (pos : Nat)
    (hpre : ∀ it ∈ pre, 0 < it.quantity ∧ productExists db it.product_id = true) :
    validateItems db (pre ++ tail) pos = validateItems db tail (pos + pre.length) := by
  induction pre generalizing pos with
  | nil => simp
  | cons p ps ih =>
    obtain ⟨hq, hp⟩ := hpre p (by simp)
    simp only [List.cons_append, validateItems, hp, Bool.not_true]
    rw [if_neg (by omega), if_neg (by simp)]
    rw [show ps.append tail = ps ++ tail from rfl,
      ih (pos + 1) (fun it hit => hpre it (by simp [hit]))]
    have harith : pos + 1 + ps.length = pos + (p :: ps).length := by
      simp [List.length_cons]
      omega
    rw [harith]

theorem validateItems_ok (db : DB) (items : List InvoiceItemRequest) (pos : Nat)
    (h : ∀ it ∈ items, 0 < it.quantity ∧ productExists db it.product_id = true) :
    validateItems db items pos = .ok () := by
  induction items generalizing pos with
  | nil => rfl
  | cons it rest ih =>
    obtain ⟨hq, hp⟩ := h it (by simp)
    simp only [validateItems, hp, Bool.not_true]
    rw [if_neg (by omega), if_neg (by simp)]
    exact ih (pos + 1) (fun x hx => h x (by simp [hx]))

theorem validateItems_error_of_bad_product (db : DB) (items : List InvoiceItemRequest)
    (pos : Nat) (hbad : ∃ it ∈ items, productExists db it.product_id = false) :
    ∃ r, validateItems db items pos = .error r := by
  induction items generalizing pos with
  | nil => simp at hbad
  | cons it rest ih =>
    by_cases h1 : it.quantity ≤ 0
    · exact ⟨"Item " ++ Nat.repr pos ++ ": Quantity must be greater than 0",
        by simp only [validateItems, if_pos h1]⟩
    · cases hb : productExists db it.product_id with
      | false =>
        refine ⟨"Product " ++ Nat.repr it.product_id ++ " not found", ?_⟩
        simp only [validateItems, if_neg h1, hb, Bool.not_false, if_pos]
      | true =>
        obtain ⟨x, hx, hpx⟩ := hbad
        rcases List.mem_cons.mp hx with hx | hx
        · rw [hx] at hpx
          rw [hpx] at hb
          exact absurd hb (by simp)
        · obtain ⟨r, hr⟩ := ih (pos + 1) ⟨x, hx, hpx⟩
          refine ⟨r, ?_⟩
          simp only [validateItems, if_neg h1, hb, Bool.not_true]
          rw [if_neg (by simp)]
          exact hr

end Invoicing

namespace Invoicing

/-! ## Stage-by-stage behaviour of `validate_invoice_input` -/

theorem validate_shape_fail (db : DB) (req : InvoiceCreate)
    (h : (dateShapeOk req.issue_date && dateShapeOk req.due_date) = false) :
    validate_invoice_input db req = .error "Dates must be in format YYYY-MM-DD" := by
  unfold validate_invoice_input
  simp [h]

theorem validate_due_fail (db : DB) (req : InvoiceCreate)
    (hshape : (dateShapeOk req.issue_date && dateShapeOk req.due_date) = true)
    (hlt : pyStrLt req.due_date req.issue_date = true) :
    validate_invoice_input db req = .error "Due date must be after or equal to issue date" := by
  unfold validate_invoice_input
  simp [hshape, hlt]

theorem validate_client_fail (db : DB) (req : InvoiceCreate)
    (hshape : (dateShapeOk req.issue_date && dateShapeOk req.due_date) = true)
    (hlt : pyStrLt req.due_date req.issue_date = false)
    (hcl : clientExists db req.client_id = false) :
    validate_invoice_input db req =
      .error ("Client " ++ Nat.repr req.client_id ++ " not found") := by
  unfold validate_invoice_input
  simp [hshape, hlt, hcl]

theorem validate_empty_fail (db : DB) (req : InvoiceCreate)
    (hshape : (dateShapeOk req.issue_date && dateShapeOk req.due_date) = true)
    (hlt : pyStrLt req.due_date req.issue_date = false)
    (hcl : clientExists db req.client_id = true)
    (hi : req.items = []) :
    validate_invoice_input db req = .error "Invoice must have at least one item" := by
  unfold validate_invoice_input
  simp [hshape, hlt, hcl, hi]

theorem validate_tax_fail (db : DB) (req : InvoiceCreate)
    (hshape : (dateShapeOk req.issue_date && dateShapeOk req.due_date) = true)
    (hlt : pyStrLt req.due_date req.issue_date = false)
    (hcl : clientExists db req.client_id = true)
    (hne : req.items.isEmpty = false)
    (htax : req.tax < 0) :
    validate_invoice_input db req = .error "Tax cannot be negative" := by
  unfold validate_invoice_input
  simp [hshape, hlt, hcl, hne, htax]

theorem validate_items_stage (db : DB) (req : InvoiceCreate)
    (hshape : (dateShapeOk req.issue_date && dateShapeOk req.due_date) = true)
    (hlt : pyStrLt req.due_date req.issue_date = false)
    (hcl : clientExists db req.client_id = true)
    (hne : req.items.isEmpty = false)
    (htax : ¬ req.tax < 0) :
    validate_invoice_input db req = validateItems db req.items 1 := by
  unfold validate_invoice_input
  simp [hshape, hlt, hcl, hne, htax]

/-- Once both dates have the right shape and the ordering check has passed,
no later check can produce the message `t` when `t` differs from every
later-stage message. -/
theorem validate_after_due_ne (db : DB) (req : InvoiceCreate) (t : String)
    (hshape : (dateShapeOk req.issue_date && dateShapeOk req.due_date) = true)
    (hlt : pyStrLt req.due_date req.issue_date = false)
    (hne_client : ∀ x : String, "Client " ++ x ++ " not found" ≠ t)
    (hne_empty : "Invoice must have at least one item" ≠ t)
    (hne_tax : "Tax cannot be negative" ≠ t)
    (hne_item : ∀ x : String, "Item " ++ x ++ ": Quantity must be greater than 0" ≠ t)
    (hne_prod : ∀ x : String, "Product " ++ x ++ " not found" ≠ t) :
    validate_invoice_input db req ≠ .error t := by
  intro h
  cases hcl : clientExists db req.client_id with
  | false =>
    rw [validate_client_fail db req hshape hlt hcl] at h
    exact hne_client (Nat.repr req.client_id) (Except.error.inj h)
  | true =>
    cases hi : req.items with
    | nil =>
      rw [validate_empty_fail db req hshape hlt hcl hi] at h
      exact hne_empty (Except.error.inj h)
    | cons a l =>
      by_cases htax : req.tax < 0
      · rw [validate_tax_fail db req hshape hlt hcl (by rw [hi]; rfl) htax] at h
        exact hne_tax (Except.error.inj h)
      · rw [validate_items_stage db req hshape hlt hcl (by rw [hi]; rfl) htax] at h
        rcases validateItems_error_shape db req.items 1 t h with ⟨k, hk⟩ | ⟨p, hp⟩
        · exact hne_item (Nat.repr k) hk.symm
        · exact hne_prod (Nat.repr p) hp.symm

end Invoicing

namespace Invoicing

/-! ## Totals and the create path -/

theorem computeSubtotal_spec (db : DB) (items : List InvoiceItemRequest) (acc s : ℚ)
    (h : computeSubtotal db items acc = some s) : s = acc + specItemsSum db items := by
  induction items generalizing acc with
  | nil =>
    simp only [computeSubtotal, Option.some.injEq] at h
    simp [specItemsSum, ← h]
  | cons it rest ih =>
    simp only [computeSubtotal] at h
    cases hp : findProduct db it.product_id with
    | none =>
      rw [hp] at h
      exact absurd h (by simp)
    | some p =>
      rw [hp] at h
      rw [ih _ h]
      simp only [specItemsSum, List.map_cons, List.sum_cons, priceOf, hp]
      simp only [Option.map, Option.getD]
      ring

theorem insertItems_subtotals (db : DB) (invId : Nat) (items : List InvoiceItemRequest)
    (nextId : Nat) (tl : List InvoiceItem) (nid : Nat)
    (h : insertItems db invId items nextId = some (tl, nid)) :
    (tl.map (fun it => it.subtotal)).sum = specItemsSum db items := by
  induction items generalizing nextId tl nid with
  | nil =>
    simp only [insertItems, Option.some.injEq, Prod.mk.injEq] at h
    rw [← h.1]
    simp [specItemsSum]
  | cons it rest ih =>
    simp only [insertItems] at h
    cases hp : findProduct db it.product_id with
    | none =>
      rw [hp] at h
      exact absurd h (by simp)
    | some p =>
      rw [hp] at h
      cases hrec : insertItems db invId rest (nextId + 1) with
      | none =>
        rw [hrec] at h
        exact absurd h (by simp)
      | some pr =>
        rw [hrec] at h
        simp only [Option.some.injEq, Prod.mk.injEq] at h
        rw [← h.1]
        simp only [List.map_cons, List.sum_cons]
        rw [ih (nextId + 1) pr.1 pr.2 (by rw [hrec])]
        simp only [specItemsSum, List.map_cons, List.sum_cons, priceOf, hp]
        simp only [Option.map, Option.getD]
        ring

theorem create_ok_inversion (db : DB) (req : InvoiceCreate) (db2 : DB) (inv : Invoice)
    (h : create_invoice db req = .ok (db2, inv)) :
    ∃ client subtotal newItems nextId,
      validate_invoice_input db req = .ok () ∧
      findClient db req.client_id = some client ∧
      computeSubtotal db req.items 0 = some subtotal ∧
      insertItems db db.next_invoice_id req.items db.next_item_id = some (newItems, nextId) ∧
      inv = { id := db.next_invoice_id, invoice_no := get_next_invoice_number db,
              issue_date := req.issue_date, due_date := req.due_date,
              client_id := req.client_id, address := client.address,
              tax := req.tax, total := subtotal + req.tax } ∧
      db2 = { db with
                invoices := db.invoices ++ [inv],
                invoice_items := db.invoice_items ++ newItems,
                next_invoice_id := db.next_invoice_id + 1,
                next_item_id := nextId } := by
  unfold create_invoice at h
  cases hv : validate_invoice_input db req with
  | error m =>
    rw [hv] at h
    exact Except.noConfusion h
  | ok u =>
    cases u
    simp only [hv] at h
    cases hc : findClient db req.client_id with
    | none =>
      rw [hc] at h
      exact Except.noConfusion h
    | some client =>
      simp only [hc] at h
      cases hs : computeSubtotal db req.items 0 with
      | none =>
        rw [hs] at h
        exact Except.noConfusion h
      | some subtotal =>
        simp only [hs] at h
        cases hi : insertItems db db.next_invoice_id req.items db.next_item_id with
        | none =>
          rw [hi] at h
          exact Except.noConfusion h
        | some pr =>
          obtain ⟨newItems, nextId⟩ := pr
          simp only [hi, Except.ok.injEq, Prod.mk.injEq] at h
          refine ⟨client, subtotal, newItems, nextId, rfl, rfl, rfl, rfl, ?_, ?_⟩
          · exact h.2.symm
          · rw [← h.1, h.2]

theorem create_error_of_validate (db : DB) (req : InvoiceCreate) (msg : String)
    (h : validate_invoice_input db req = .error msg) :
    create_invoice db req = .error (.badRequest msg) := by
  unfold create_invoice
  rw [h]

theorem createStep_of_validate_error (db : DB) (req : InvoiceCreate) (msg : String)
    (h : validate_invoice_input db req = .error msg) :
    createStep db req = (db, .error (.badRequest msg)) := by
  rw [createStep, create_error_of_validate db req msg h]

/-! ## Deletion helpers -/

theorem find?_filter_not (l : List Invoice) (invoice_id : Nat) :
    (l.filter (fun i => !(i.id == invoice_id))).find? (fun i => i.id == invoice_id) = none := by
  induction l with
  | nil => rfl
  | cons a l ih =>
    cases ha : (a.id == invoice_id) with
    | false => simp [List.filter_cons, ha, List.find?_cons, ih]
    | true => simp [List.filter_cons, ha, ih]

end Invoicing

namespace Invoicing

theorem validate_error_of_bad_refs (db : DB) (req : InvoiceCreate)
    (hbad : clientExists db req.client_id = false ∨
      ∃ it ∈ req.items, productExists db it.product_id = false) :
    ∃ msg, validate_invoice_input db req = .error msg := by
  cases hshape : (dateShapeOk req.issue_date && dateShapeOk req.due_date) with
  | false => exact ⟨_, validate_shape_fail db req hshape⟩
  | true =>
    cases hlt : pyStrLt req.due_date req.issue_date with
    | true => exact ⟨_, validate_due_fail db req hshape hlt⟩
    | false =>
      cases hcl : clientExists db req.client_id with
      | false => exact ⟨_, validate_client_fail db req hshape hlt hcl⟩
      | true =>
        rcases hbad with hbad | hbad
        · rw [hcl] at hbad
          exact absurd hbad (by simp)
        · cases hi : req.items with
          | nil =>
            rw [hi] at hbad
            simp at hbad
          | cons a l =>
            by_cases htax : req.tax < 0
            · exact ⟨_, validate_tax_fail db req hshape hlt hcl (by rw [hi]; rfl) htax⟩
            · obtain ⟨r, hr⟩ := validateItems_error_of_bad_product db req.items 1 hbad
              refine ⟨r, ?_⟩
              rw [validate_items_stage db req hshape hlt hcl (by rw [hi]; rfl) htax]
              exact hr

/-! ## Claim theorems -/

/-- C10: for every n ≥ 1, parsing the numeric suffix after the
four-character "INV-" prefix of the formatted identifier recovers exactly
n (also past "INV-999"), so the number-to-identifier mapping is injective. -/
theorem invoice_number_roundtrip :
    ∀ n : Nat, 1 ≤ n →
      invoiceNoValue (formatInvoiceNo n) = n ∧
      ∀ m : Nat, 1 ≤ m → formatInvoiceNo m = formatInvoiceNo n → m = n := by
  intro n h1
  refine ⟨invoiceNoValue_format n, ?_⟩
  intro m hm heq
  have h2 := congrArg invoiceNoValue heq
  rw [invoiceNoValue_format, invoiceNoValue_format] at h2
  exact h2

/-- Witness for C10 at n = 1234, beyond the three-digit padding range. -/
theorem invoice_number_roundtrip_witness :
    formatInvoiceNo 1234 = "INV-1234" ∧ invoiceNoValue (formatInvoiceNo 1234) = 1234 :=
  ⟨by decide, (invoice_number_roundtrip 1234 (by decide)).1⟩

/-- C3: for every state of the invoices table, `get_next_invoice_number`
returns "INV-" followed by the 3-zero-padded decimal of N + 1, where N is
the maximum numeric suffix among the stored invoice numbers (0, hence
result "INV-001", when the table is empty). -/
theorem next_invoice_number_spec :
    ∀ db : DB, ∃ N : Nat,
      get_next_invoice_number db =
        "INV-" ++ String.mk (List.replicate (3 - (natToDigits (N + 1)).length) '0' ++
          natToDigits (N + 1)) ∧
      (∀ inv ∈ db.invoices, invoiceNoValue inv.invoice_no ≤ N) ∧
      (N = 0 ∨ ∃ inv ∈ db.invoices, invoiceNoValue inv.invoice_no = N) ∧
      (db.invoices = [] → get_next_invoice_number db = "INV-001") := by
  intro db
  refine ⟨maxSuffix db.invoices, rfl, ?_, ?_, ?_⟩
  · exact (le_foldl_max (fun i => invoiceNoValue i.invoice_no) db.invoices 0).2
  · rcases foldl_max_cases (fun i => invoiceNoValue i.invoice_no) db.invoices 0 with
      h | ⟨x, hx, hfx⟩
    · exact Or.inl h
    · exact Or.inr ⟨x, hx, hfx.symm⟩
  · intro hempty
    rw [get_next_invoice_number, show maxSuffix db.invoices = 0 from by rw [hempty]; rfl]
    rfl

/-- Witness for C3 at a store holding one invoice numbered "INV-001". -/
theorem next_invoice_number_spec_witness :
    ∃ N : Nat,
      get_next_invoice_number scenarioDB1 =
        "INV-" ++ String.mk (List.replicate (3 - (natToDigits (N + 1)).length) '0' ++
          natToDigits (N + 1)) ∧
      (∀ inv ∈ scenarioDB1.invoices, invoiceNoValue inv.invoice_no ≤ N) ∧
      (N = 0 ∨ ∃ inv ∈ scenarioDB1.invoices, invoiceNoValue inv.invoice_no = N) ∧
      (scenarioDB1.invoices = [] → get_next_invoice_number scenarioDB1 = "INV-001") :=
  next_invoice_number_spec scenarioDB1

/-- C9: each migration unit's `upgrade` is idempotent: with the ledger row
present it is a no-op, so a second run changes nothing; without it, it
performs the forward step and inserts the ledger row. -/
theorem migration_upgrades_idempotent :
    ∀ s : MigState,
      (s.ledger.contains "002_create_products_table" = true → upgrade_002 s = s) ∧
      upgrade_002 (upgrade_002 s) = upgrade_002 s ∧
      (s.ledger.contains "002_create_products_table" = false →
        upgrade_002 s = { s with
                            productsTable := true
                            ledger := s.ledger ++ ["002_create_products_table"] }) ∧
      (s.ledger.contains "006_seed_products_and_clients" = true → upgrade_006 s = s) ∧
      upgrade_006 (upgrade_006 s) = upgrade_006 s ∧
      (s.ledger.contains "006_seed_products_and_clients" = false →
        upgrade_006 s = { s with
                            productRows := s.productRows ++ seedProducts
                            clientRows := s.clientRows ++ seedClients
                            ledger := s.ledger ++ ["006_seed_products_and_clients"] }) := by
  intro s
  have hskip2 : ∀ t : MigState, t.ledger.contains "002_create_products_table" = true →
      upgrade_002 t = t := by
    intro t ht
    rw [upgrade_002, if_pos ht]
  have hskip6 : ∀ t : MigState, t.ledger.contains "006_seed_products_and_clients" = true →
      upgrade_006 t = t := by
    intro t ht
    rw [upgrade_006, if_pos ht]
  have hmem : ∀ (l : List String) (a : String), (l ++ [a]).contains a = true := by
    intro l a
    induction l with
    | nil => simp
    | cons b bs ih => simp [ih]
  refine ⟨hskip2 s, ?_, ?_, hskip6 s, ?_, ?_⟩
  · cases hc : s.ledger.contains "002_create_products_table" with
    | true =>
      rw [hskip2 s hc]
      exact hskip2 s hc
    | false =>
      have hstep : upgrade_002 s = { s with
          productsTable := true
          ledger := s.ledger ++ ["002_create_products_table"] } := by
        rw [upgrade_002, if_neg (by rw [hc]; exact Bool.false_ne_true)]
      rw [hstep]
      exact hskip2 _ (hmem s.ledger _)
  · intro hc
    rw [upgrade_002, if_neg (by rw [hc]; exact Bool.false_ne_true)]
  · cases hc : s.ledger.contains "006_seed_products_and_clients" with
    | true =>
      rw [hskip6 s hc]
      exact hskip6 s hc
    | false =>
      have hstep : upgrade_006 s = { s with
          productRows := s.productRows ++ seedProducts
          clientRows := s.clientRows ++ seedClients
          ledger := s.ledger ++ ["006_seed_products_and_clients"] } := by
        rw [upgrade_006, if_neg (by rw [hc]; exact Bool.false_ne_true)]
      rw [hstep]
      exact hskip6 _ (hmem s.ledger _)
  · intro hc
    rw [upgrade_006, if_neg (by rw [hc]; exact Bool.false_ne_true)]

/-- Witness for C9 on the empty migration store. -/
theorem migration_upgrades_idempotent_witness :
    upgrade_002 migEmpty = { migEmpty with
                               productsTable := true
                               ledger := migEmpty.ledger ++ ["002_create_products_table"] } ∧
    upgrade_006 migEmpty = { migEmpty with
                               productRows := migEmpty.productRows ++ seedProducts
                               clientRows := migEmpty.clientRows ++ seedClients
                               ledger := migEmpty.ledger ++ ["006_seed_products_and_clients"] } :=
  ⟨(migration_upgrades_idempotent migEmpty).2.2.1 (by decide),
   (migration_upgrades_idempotent migEmpty).2.2.2.2.2 (by decide)⟩

end Invoicing

namespace Invoicing

/-- C1: the no-reuse claim fails on the code.  On the scenario store,
creating an invoice assigns "INV-001"; after deleting that invoice, the
next create scans only the remaining rows and assigns "INV-001" again to a
different invoice, so a number that belonged to a deleted invoice is
reassigned (and the numeric suffixes 1, 1 are not strictly increasing). -/
theorem invoice_number_reused_after_delete :
    create_invoice scenarioDB scenarioReq = .ok (scenarioDB1, scenarioInv1) ∧
    delete_invoice scenarioDB1 scenarioInv1.id = .ok scenarioDB2 ∧
    create_invoice scenarioDB2 scenarioReq = .ok (scenarioDB3, scenarioInv2) ∧
    scenarioInv1.invoice_no = "INV-001" ∧
    scenarioInv2.invoice_no = "INV-001" ∧
    scenarioInv1.id ≠ scenarioInv2.id :=
  ⟨scenario_create, scenario_delete, scenario_create2, rfl, rfl, by decide⟩

/-- C2: for every create that succeeds, the returned invoice row (also the
row appended to the table) has `total = tax + Σ quantity·price`, and this
also equals `tax` plus the sum of the stored item subtotals; in the seeded
scenario the total is exactly 5350 and the number is "INV-001". -/
theorem create_total_correct :
    (∀ db req db2 inv, create_invoice db req = .ok (db2, inv) →
      db2.invoices = db.invoices ++ [inv] ∧
      inv.total = req.tax + specItemsSum db req.items ∧
      ∃ newItems, db2.invoice_items = db.invoice_items ++ newItems ∧
        inv.total = req.tax + (newItems.map (fun it => it.subtotal)).sum) ∧
    (create_invoice scenarioDB scenarioReq = .ok (scenarioDB1, scenarioInv1) ∧
      scenarioInv1.total = 5350 ∧ scenarioInv1.invoice_no = "INV-001") := by
  constructor
  · intro db req db2 inv h
    obtain ⟨client, subtotal, newItems, nextId, hv, hc, hs, hi, hinv, hdb2⟩ :=
      create_ok_inversion db req db2 inv h
    have hsub := computeSubtotal_spec db req.items 0 subtotal hs
    have hsums := insertItems_subtotals db db.next_invoice_id req.items db.next_item_id
      newItems nextId hi
    refine ⟨by rw [hdb2], ?_, newItems, by rw [hdb2], ?_⟩
    · rw [hinv]
      show subtotal + req.tax = req.tax + specItemsSum db req.items
      rw [hsub]
      ring
    · rw [hinv]
      show subtotal + req.tax = req.tax + (newItems.map (fun it => it.subtotal)).sum
      rw [hsub, hsums]
      ring
  · exact ⟨scenario_create, rfl, rfl⟩

/-- Witness for C2 at the spec scenario. -/
theorem create_total_correct_witness :
    scenarioDB1.invoices = scenarioDB.invoices ++ [scenarioInv1] ∧
    scenarioInv1.total = scenarioReq.tax + specItemsSum scenarioDB scenarioReq.items :=
  ⟨(create_total_correct.1 scenarioDB scenarioReq scenarioDB1 scenarioInv1 scenario_create).1,
   (create_total_correct.1 scenarioDB scenarioReq scenarioDB1 scenarioInv1
      scenario_create).2.1⟩

/-- C4: a create whose validation fails — in particular one naming a
missing client or a missing product — returns a 400 error and leaves the
store unchanged: validation runs before any insert. -/
theorem invalid_create_unchanged :
    ∀ db req,
      (∀ msg, validate_invoice_input db req = .error msg →
        createStep db req = (db, .error (.badRequest msg))) ∧
      ((clientExists db req.client_id = false ∨
          ∃ it ∈ req.items, productExists db it.product_id = false) →
        ∃ msg, validate_invoice_input db req = .error msg ∧
          createStep db req = (db, .error (.badRequest msg))) := by
  intro db req
  refine ⟨fun msg h => createStep_of_validate_error db req msg h, fun hbad => ?_⟩
  obtain ⟨msg, hmsg⟩ := validate_error_of_bad_refs db req hbad
  exact ⟨msg, hmsg, createStep_of_validate_error db req msg hmsg⟩

/-- Witness for C4: creating with the unknown client id 99 leaves the
scenario store unchanged and reports a 400-class error. -/
theorem invalid_create_unchanged_witness :
    ∃ msg, validate_invoice_input scenarioDB reqBadClient = .error msg ∧
      createStep scenarioDB reqBadClient = (scenarioDB, .error (.badRequest msg)) :=
  (invalid_create_unchanged scenarioDB reqBadClient).2 (Or.inl (by decide))

end Invoicing

namespace Invoicing

/-- C5 counterexample: on `reqBadProduct` the first failing item sits at
1-based position 2, but the produced message is "Product 99 not found": it
names the product id, and contains no character '2', so it does not report
the item position. -/
theorem item_position_not_reported :
    validate_invoice_input scenarioDB reqBadProduct = .error "Product 99 not found" ∧
    ("Product 99 not found").data.contains '2' = false := by
  decide

/-- C5 (amended): the checks run in the fixed order date-shape,
date-ordering, client-exists, items-non-empty, tax-non-negative, then
per-item checks in request order; each failure yields a distinct message;
quantity failures report the 1-based position of the first failing item,
while product-not-found failures report the missing product id. -/
theorem validation_order_and_messages :
    ∀ db req,
      ((dateShapeOk req.issue_date && dateShapeOk req.due_date) = false →
        validate_invoice_input db req = .error "Dates must be in format YYYY-MM-DD") ∧
      ((dateShapeOk req.issue_date && dateShapeOk req.due_date) = true →
        pyStrLt req.due_date req.issue_date = true →
        validate_invoice_input db req =
          .error "Due date must be after or equal to issue date") ∧
      ((dateShapeOk req.issue_date && dateShapeOk req.due_date) = true →
        pyStrLt req.due_date req.issue_date = false →
        clientExists db req.client_id = false →
        validate_invoice_input db req =
          .error ("Client " ++ Nat.repr req.client_id ++ " not found")) ∧
      ((dateShapeOk req.issue_date && dateShapeOk req.due_date) = true →
        pyStrLt req.due_date req.issue_date = false →
        clientExists db req.client_id = true →
        req.items = [] →
        validate_invoice_input db req = .error "Invoice must have at least one item") ∧
      ((dateShapeOk req.issue_date && dateShapeOk req.due_date) = true →
        pyStrLt req.due_date req.issue_date = false →
        clientExists db req.client_id = true →
        req.items ≠ [] →
        req.tax < 0 →
        validate_invoice_input db req = .error "Tax cannot be negative") ∧
      (∀ pre item rest,
        (dateShapeOk req.issue_date && dateShapeOk req.due_date) = true →
        pyStrLt req.due_date req.issue_date = false →
        clientExists db req.client_id = true →
        ¬ req.tax < 0 →
        req.items = pre ++ item :: rest →
        (∀ it ∈ pre, 0 < it.quantity ∧ productExists db it.product_id = true) →
        ((item.quantity ≤ 0 →
          validate_invoice_input db req =
            .error ("Item " ++ Nat.repr (pre.length + 1) ++
              ": Quantity must be greater than 0")) ∧
         (0 < item.quantity → productExists db item.product_id = false →
          validate_invoice_input db req =
            .error ("Product " ++ Nat.repr item.product_id ++ " not found")))) ∧
      (∀ x y : String,
        ("Client " ++ x ++ " not found" ≠ "Dates must be in format YYYY-MM-DD") ∧
        ("Client " ++ x ++ " not found" ≠ "Due date must be after or equal to issue date") ∧
        ("Client " ++ x ++ " not found" ≠ "Invoice must have at least one item") ∧
        ("Client " ++ x ++ " not found" ≠ "Tax cannot be negative") ∧
        ("Item " ++ x ++ ": Quantity must be greater than 0" ≠
          "Dates must be in format YYYY-MM-DD") ∧
        ("Item " ++ x ++ ": Quantity must be greater than 0" ≠
          "Due date must be after or equal to issue date") ∧
        ("Item " ++ x ++ ": Quantity must be greater than 0" ≠
          "Invoice must have at least one item") ∧
        ("Item " ++ x ++ ": Quantity must be greater than 0" ≠ "Tax cannot be negative") ∧
        ("Product " ++ x ++ " not found" ≠ "Dates must be in format YYYY-MM-DD") ∧
        ("Product " ++ x ++ " not found" ≠
          "Due date must be after or equal to issue date") ∧
        ("Product " ++ x ++ " not found" ≠ "Invoice must have at least one item") ∧
        ("Product " ++ x ++ " not found" ≠ "Tax cannot be negative") ∧
        ("Client " ++ x ++ " not found" ≠
          "Item " ++ y ++ ": Quantity must be greater than 0") ∧
        ("Client " ++ x ++ " not found" ≠ "Product " ++ y ++ " not found") ∧
        ("Item " ++ x ++ ": Quantity must be greater than 0" ≠
          "Product " ++ y ++ " not found") ∧
        ("Dates must be in format YYYY-MM-DD" ≠
          "Due date must be after or equal to issue date") ∧
        ("Dates must be in format YYYY-MM-DD" ≠ "Invoice must have at least one item") ∧
        ("Dates must be in format YYYY-MM-DD" ≠ "Tax cannot be negative") ∧
        ("Due date must be after or equal to issue date" ≠
          "Invoice must have at least one item") ∧
        ("Due date must be after or equal to issue date" ≠ "Tax cannot be negative") ∧
        ("Invoice must have at least one item" ≠ "Tax cannot be negative")) := by
  intro db req
  refine ⟨validate_shape_fail db req, validate_due_fail db req, validate_client_fail db req,
    validate_empty_fail db req, ?_, ?_, ?_⟩
  · intro hshape hlt hcl hne htax
    have hb : req.items.isEmpty = false := by
      cases hi : req.items with
      | nil => exact absurd hi hne
      | cons a l => rfl
    exact validate_tax_fail db req hshape hlt hcl hb htax
  · intro pre item rest hshape hlt hcl htax hitems hpre
    have hb : req.items.isEmpty = false := by
      rw [hitems]
      cases pre <;> rfl
    constructor
    · intro hq
      rw [validate_items_stage db req hshape hlt hcl hb htax, hitems,
        validateItems_append db pre (item :: rest) 1 hpre]
      simp only [validateItems, if_pos hq]
      rw [Nat.add_comm 1 pre.length]
    · intro hq hp
      rw [validate_items_stage db req hshape hlt hcl hb htax, hitems,
        validateItems_append db pre (item :: rest) 1 hpre]
      simp only [validateItems, hp, Bool.not_false]
      rw [if_neg (by omega), if_pos trivial]
  · intro x y
    refine ⟨?_, ?_, ?_, ?_, ?_, ?_, ?_, ?_, ?_, ?_, ?_, ?_, ?_, ?_, ?_, by decide,
      by decide, by decide, by decide, by decide, by decide⟩
    · exact append3_ne_of_head_ne "Client " x " not found" _ 'C' ("lient ".data) rfl
        (by decide)
    · exact append3_ne_of_head_ne "Client " x " not found" _ 'C' ("lient ".data) rfl
        (by decide)
    · exact append3_ne_of_head_ne "Client " x " not found" _ 'C' ("lient ".data) rfl
        (by decide)
    · exact append3_ne_of_head_ne "Client " x " not found" _ 'C' ("lient ".data) rfl
        (by decide)
    · exact append3_ne_of_head_ne "Item " x ": Quantity must be greater than 0" _ 'I'
        ("tem ".data) rfl (by decide)
    · exact append3_ne_of_head_ne "Item " x ": Quantity must be greater than 0" _ 'I'
        ("tem ".data) rfl (by decide)
    · exact itemMsg_ne_emptyMsg x ": Quantity must be greater than 0"
    · exact append3_ne_of_head_ne "Item " x ": Quantity must be greater than 0" _ 'I'
        ("tem ".data) rfl (by decide)
    · exact append3_ne_of_head_ne "Product " x " not found" _ 'P' ("roduct ".data) rfl
        (by decide)
    · exact append3_ne_of_head_ne "Product " x " not found" _ 'P' ("roduct ".data) rfl
        (by decide)
    · exact append3_ne_of_head_ne "Product " x " not found" _ 'P' ("roduct ".data) rfl
        (by decide)
    · exact append3_ne_of_head_ne "Product " x " not found" _ 'P' ("roduct ".data) rfl
        (by decide)
    · exact append3_ne_append3_of_head_ne "Client " x " not found" "Item " y
        ": Quantity must be greater than 0" 'C' 'I' ("lient ".data) ("tem ".data) rfl rfl
        (by decide)
    · exact append3_ne_append3_of_head_ne "Client " x " not found" "Product " y
        " not found" 'C' 'P' ("lient ".data) ("roduct ".data) rfl rfl (by decide)
    · exact append3_ne_append3_of_head_ne "Item " x ": Quantity must be greater than 0"
        "Product " y " not found" 'I' 'P' ("tem ".data) ("roduct ".data) rfl rfl (by decide)

/-- Witness for the amended C5: the product failure at position 2 of
`reqBadProduct` reports the product id 99. -/
theorem validation_order_and_messages_witness :
    validate_invoice_input scenarioDB reqBadProduct =
      .error ("Product " ++ Nat.repr 99 ++ " not found") :=
  ((validation_order_and_messages scenarioDB reqBadProduct).2.2.2.2.2.1
      [{ product_id := 1, quantity := 1 }] { product_id := 99, quantity := 1 } []
      (by decide) (by decide) (by decide) (by decide) rfl (by decide)).2
    (by decide) (by decide)

end Invoicing

namespace Invoicing

/-- C6: the date check is purely syntactic: `validate_invoice_input`
produces the date-format error exactly when one of the two dates does not
split on '-' into exactly three components; the calendar-invalid request
`req9999` ("2024-99-99") passes validation entirely. -/
theorem date_check_is_syntactic :
    (∀ db req,
      validate_invoice_input db req = .error "Dates must be in format YYYY-MM-DD" ↔
        ¬((splitOnDash req.issue_date.data).length = 3 ∧
          (splitOnDash req.due_date.data).length = 3)) ∧
    validate_invoice_input scenarioDB req9999 = .ok () := by
  constructor
  · intro db req
    constructor
    · intro h hc
      have hshape : (dateShapeOk req.issue_date && dateShapeOk req.due_date) = true := by
        simp [dateShapeOk, hc.1, hc.2]
      cases hlt : pyStrLt req.due_date req.issue_date with
      | true =>
        rw [validate_due_fail db req hshape hlt] at h
        exact absurd (Except.error.inj h) (by decide)
      | false =>
        refine validate_after_due_ne db req _ hshape hlt ?_ (by decide) (by decide) ?_ ?_ h
        · intro x
          exact append3_ne_of_head_ne "Client " x " not found" _ 'C' ("lient ".data) rfl
            (by decide)
        · intro x
          exact append3_ne_of_head_ne "Item " x ": Quantity must be greater than 0" _ 'I'
            ("tem ".data) rfl (by decide)
        · intro x
          exact append3_ne_of_head_ne "Product " x " not found" _ 'P' ("roduct ".data) rfl
            (by decide)
    · intro h
      have hshape : (dateShapeOk req.issue_date && dateShapeOk req.due_date) = false := by
        cases ha : dateShapeOk req.issue_date with
        | false => rfl
        | true =>
          cases hb : dateShapeOk req.due_date with
          | false => rfl
          | true =>
            exfalso
            apply h
            rw [dateShapeOk] at ha hb
            simp only [beq_iff_eq] at ha hb
            exact ⟨ha, hb⟩
      exact validate_shape_fail db req hshape
  · decide

/-- Witness for C6: a date written with slashes fails the shape check. -/
theorem date_check_is_syntactic_witness :
    validate_invoice_input scenarioDB reqBadShape =
      .error "Dates must be in format YYYY-MM-DD" :=
  (date_check_is_syntactic.1 scenarioDB reqBadShape).mpr (by decide)

/-- C7: with both dates well shaped, the creation request is rejected with
the due-date error exactly when `due_date < issue_date` under direct string
comparison; the spec's example (issue 2024-03-10, due 2024-03-01) is
rejected. -/
theorem due_date_ordering :
    (∀ db req, (dateShapeOk req.issue_date && dateShapeOk req.due_date) = true →
      (validate_invoice_input db req =
          .error "Due date must be after or equal to issue date" ↔
        pyStrLt req.due_date req.issue_date = true)) ∧
    pyStrLt "2024-03-01" "2024-03-10" = true ∧
    validate_invoice_input scenarioDB reqDueEarly =
      .error "Due date must be after or equal to issue date" := by
  refine ⟨?_, by decide, by decide⟩
  intro db req hshape
  constructor
  · intro h
    cases hlt : pyStrLt req.due_date req.issue_date with
    | true => rfl
    | false =>
      exfalso
      refine validate_after_due_ne db req _ hshape hlt ?_ (by decide) (by decide) ?_ ?_ h
      · intro x
        exact append3_ne_of_head_ne "Client " x " not found" _ 'C' ("lient ".data) rfl
          (by decide)
      · intro x
        exact append3_ne_of_head_ne "Item " x ": Quantity must be greater than 0" _ 'I'
          ("tem ".data) rfl (by decide)
      · intro x
        exact append3_ne_of_head_ne "Product " x " not found" _ 'P' ("roduct ".data) rfl
          (by decide)
  · intro hlt
    exact validate_due_fail db req hshape hlt

/-- Witness for C7 at the spec's example dates. -/
theorem due_date_ordering_witness :
    validate_invoice_input scenarioDB reqDueEarly =
      .error "Due date must be after or equal to issue date" :=
  (due_date_ordering.1 scenarioDB reqDueEarly (by decide)).mpr (by decide)

/-- C8: deleting an existing invoice removes its item rows first and then
the invoice row (the intermediate state keeps the invoice row); afterwards
no item row references the invoice and `get_invoice` returns 404; deleting
a missing id returns 404. -/
theorem delete_invoice_spec :
    ∀ db invoice_id,
      (db.invoices.any (fun i => i.id == invoice_id) = true →
        delete_invoice db invoice_id =
          .ok (deleteInvoiceRow (deleteItemsOf db invoice_id) invoice_id) ∧
        (deleteItemsOf db invoice_id).invoices = db.invoices ∧
        (∀ it ∈ (deleteInvoiceRow (deleteItemsOf db invoice_id) invoice_id).invoice_items,
          it.invoice_id ≠ invoice_id) ∧
        get_invoice (deleteInvoiceRow (deleteItemsOf db invoice_id) invoice_id) invoice_id =
          .error (.notFound "Invoice not found")) ∧
      (db.invoices.any (fun i => i.id == invoice_id) = false →
        delete_invoice db invoice_id = .error (.notFound "Invoice not found")) := by
  intro db invoice_id
  constructor
  · intro hex
    refine ⟨by rw [delete_invoice, if_pos hex], rfl, ?_, ?_⟩
    · intro it hit
      have hmem : it ∈ db.invoice_items.filter (fun x => !(x.invoice_id == invoice_id)) := hit
      have h2 := (List.mem_filter.mp hmem).2
      intro heq
      rw [heq] at h2
      simp at h2
    · have hf : ((deleteInvoiceRow (deleteItemsOf db invoice_id) invoice_id).invoices.find?
          (fun i => i.id == invoice_id)) = none := find?_filter_not _ _
      unfold get_invoice
      rw [hf]
  · intro hnex
    rw [delete_invoice, if_neg (by rw [hnex]; exact Bool.false_ne_true)]

/-- Witness for C8 at the one-invoice scenario store. -/
theorem delete_invoice_spec_witness :
    delete_invoice scenarioDB1 1 =
      .ok (deleteInvoiceRow (deleteItemsOf scenarioDB1 1) 1) ∧
    get_invoice (deleteInvoiceRow (deleteItemsOf scenarioDB1 1) 1) 1 =
      .error (.notFound "Invoice not found") :=
  ⟨((delete_invoice_spec scenarioDB1 1).1 (by decide)).1,
   ((delete_invoice_spec scenarioDB1 1).1 (by decide)).2.2.2⟩

end Invoicing
